import Mathlib

/-!
Verification of the medtracker record-keeping backend.

The computational core is shallowly embedded here: the dose-math
functions and the drug-information client are modelled as pure Lean
functions; dates are integers (day numbers), timestamps carry a date
plus a time-of-day so that date-granularity comparisons are visible,
and adherence percentages are exact rationals.
-/

namespace Medtracker

/-- A point in time: a calendar date (day number) plus a time of day.
Range comparisons in the dose math are done on the calendar date only. -/
structure Timestamp where
  date : Int
  tod : Nat
  deriving DecidableEq, Repr

/-- A medication prescription record (`Medication` model): identifier-free
projection carrying the fields the dose math and the external lookup use. -/
structure Medication where
  name : String
  dosage_mg : Nat
  prescribed_per_day : Nat
  deriving DecidableEq, Repr

/-- A dose event (`DoseLog` model): when it happened and whether the dose
was taken. The back-reference to the medication is implicit: each function
receives the list of logs already filtered to one medication. -/
structure DoseLog where
  taken_at : Timestamp
  was_taken : Bool
  deriving DecidableEq, Repr

/-- Modelled from the spec: `Medication.expected_doses` lives in
`medtrackerapp/models.py`, which is not part of the provided sources
(only its tests and callers are). Spec 4.1: returns
`prescribed_per_day * days`; fails with an invalid-argument condition
(Python `ValueError` per the tests) when `days < 0`; zero is valid and
yields zero. -/
def Medication.expected_doses (m : Medication) (days : Int) : Except String Int :=
  if days < 0 then
    .error "Days cannot be negative"
  else
    .ok (m.prescribed_per_day * days)

/-- Modelled from the spec: `Medication.adherence_rate` lives in
`medtrackerapp/models.py`, which is not part of the provided sources.
Spec 4.1: over all of a medication's logs, the percentage of logs where
`was_taken` is true, `100 * count(was_taken=true) / count(all logs)`;
zero logs yield `0.0` rather than a division error. -/
def Medication.adherence_rate (_m : Medication) (logs : List DoseLog) : Rat :=
  if logs.isEmpty then 0
  else 100 * ((logs.filter (·.was_taken)).length : Rat) / (logs.length : Rat)

/-- Count of logs marked taken whose calendar date lies in the inclusive
range `[s, e]` (date granularity: the time of day is ignored). -/
def count_taken_in_range (s e : Int) (logs : List DoseLog) : Nat :=
  (logs.filter fun l =>
    l.was_taken && decide (s ≤ l.taken_at.date) && decide (l.taken_at.date ≤ e)).length

/-- Modelled from the spec: `Medication.adherence_rate_over_period` lives in
`medtrackerapp/models.py`, which is not part of the provided sources.
Spec 4.1: restricted to logs whose `taken_at` date falls within
`[start_date, end_date]` inclusive, divided by the expected dose count for
the period (`prescribed_per_day * number_of_days_in_range`), not by the
number of logs found; fails with an invalid-argument condition (Python
`ValueError` per the tests) when `start_date > end_date`. -/
def Medication.adherence_rate_over_period (m : Medication)
    (start_date end_date : Int) (logs : List DoseLog) : Except String Rat :=
  if start_date > end_date then
    .error "Start date must be before end date"
  else
    let days := end_date - start_date + 1
    let expected : Rat := (m.prescribed_per_day : Rat) * (days : Rat)
    .ok (100 * (count_taken_in_range start_date end_date logs : Rat) / expected)

/-- The nested `openfda` object of one external API result entry
(shape fixed by `test_services.py`): each field may be absent. -/
structure OpenFda where
  generic_name : Option (List String)
  manufacturer_name : Option (List String)
  deriving DecidableEq, Repr

/-- One entry of the external API's `results` list: nested `openfda`
data plus optional top-level `warnings` and `purpose` string lists. -/
structure ApiResult where
  openfda : Option OpenFda
  warnings : Option (List String)
  purpose : Option (List String)
  deriving DecidableEq, Repr

/-- A successfully parsed response from the external HTTP transport:
a status code and the parsed `results` list. A malformed body or a
transport failure is the `Except.error` case of the transport itself. -/
structure HttpResponse where
  status_code : Nat
  results : List ApiResult
  deriving DecidableEq, Repr

/-- The structured drug record returned on a successful lookup. -/
structure DrugRecord where
  name : String
  manufacturer : String
  warnings : List String
  purpose : List String
  deriving DecidableEq, Repr

/-- The failure taxonomy of the drug-information client (spec 7):
invalid-argument or lookup-failure, each carrying a message. -/
inductive DrugErr where
  | invalidArg (msg : String)
  | lookupFailure (msg : String)
  deriving DecidableEq, Repr

/-- The message text carried by a failure condition. -/
def DrugErr.message : DrugErr → String
  | .invalidArg m => m
  | .lookupFailure m => m

/-- Modelled from the spec: the field-extraction step of
`DrugInfoService.get_drug_info` in `medtrackerapp/services.py`, which is
not part of the provided sources. Spec 4.2: `name` is the first generic
name or the query name, `manufacturer` the first manufacturer name or
"Unknown", `warnings` the list or `["No warnings available"]` if absent,
`purpose` the list or `["Not specified"]` if absent. -/
def normalize_result (query_name : String) (r : ApiResult) : DrugRecord :=
  { name := ((r.openfda.bind (·.generic_name)).bind List.head?).getD query_name
    manufacturer := ((r.openfda.bind (·.manufacturer_name)).bind List.head?).getD "Unknown"
    warnings := r.warnings.getD ["No warnings available"]
    purpose := r.purpose.getD ["Not specified"] }

/-- Modelled from the spec: `DrugInfoService.get_drug_info` in
`medtrackerapp/services.py`, which is not part of the provided sources
(only its tests and callers are). The HTTP transport is an injected
function; the second component of the result counts how many times the
transport was invoked. Spec 4.2: empty name fails invalid-argument
before any network call; a transport exception propagates as a
lookup-failure; a non-success (non-200) status is a lookup-failure; a
success status with no results is the "no results" lookup-failure;
otherwise the first result is normalized. -/
def get_drug_info (name : String)
    (transport : Unit → Except String HttpResponse) :
    Except DrugErr DrugRecord × Nat :=
  if name = "" then
    (.error (.invalidArg "Drug name is required"), 0)
  else
    match transport () with
    | .error e => (.error (.lookupFailure e), 1)
    | .ok resp =>
      if resp.status_code ≠ 200 then
        (.error (.lookupFailure ("API request failed with status " ++ toString resp.status_code)), 1)
      else
        match resp.results with
        | [] => (.error (.lookupFailure "No results found for this drug"), 1)
        | r :: _ => (.ok (normalize_result name r), 1)

/-- A Python value as far as the view layer inspects one: a string, a
list of strings, or `None`. -/
inductive PyVal where
  | str (s : String)
  | list (l : List String)
  | none_
  deriving DecidableEq, Repr

/-- Python truthiness of the values above: a string is truthy iff
non-empty, a list iff non-empty, `None` never. -/
def PyVal.truthy : PyVal → Bool
  | .str s => !s.isEmpty
  | .list l => !l.isEmpty
  | .none_ => false

/-- A Python dict with string keys, as an association list. -/
def PyDict := List (String × PyVal)

/-- `d.get(k)`: `some` of the first value bound to `k`, else `none`. -/
def PyDict.get (d : PyDict) (k : String) : Option PyVal :=
  (d.find? (·.1 = k)).map (·.2)

/-- Truthiness of `d.get(k)` as Python evaluates it: an absent key
gives `None`, which is falsy. -/
def truthy_opt : Option PyVal → Bool
  | none => false
  | some v => v.truthy

/-- The serialized form of a drug record, as the dict the glue layer
hands to the HTTP boundary. -/
def DrugRecord.toDict (r : DrugRecord) : PyDict :=
  [("name", .str r.name), ("manufacturer", .str r.manufacturer),
   ("warnings", .list r.warnings), ("purpose", .list r.purpose)]

/-- Modelled from the spec: `Medication.fetch_external_info` in
`medtrackerapp/models.py`, which is not part of the provided sources.
Spec 4.3: calls `get_drug_info` with the record's own name, returns the
structured record unchanged on success, and on any failure catches it
and returns `{"error": <message text>}` instead of propagating. -/
def Medication.fetch_external_info (m : Medication)
    (transport : Unit → Except String HttpResponse) : PyDict :=
  match (get_drug_info m.name transport).1 with
  | .ok r => r.toDict
  | .error e => [("error", .str e.message)]

/-- The status decision of `MedicationViewSet.get_external_info`
(`views.py` lines 48-53): 502 when the returned dict has a truthy
`"error"` value, 200 otherwise. -/
def get_external_info_status (data : PyDict) : Nat :=
  if truthy_opt (data.get "error") then 502 else 200

/-- The characters Python's `str.strip()` removes, i.e. those with
`str.isspace()` true (CPython's whitespace set): the ASCII controls
U+0009 to U+000D, the separators U+001C to U+001F, space, next line
U+0085, no-break space U+00A0, Ogham space mark U+1680, the spaces
U+2000 to U+200A, line separator U+2028, paragraph separator U+2029,
narrow no-break space U+202F, medium mathematical space U+205F, and
ideographic space U+3000. -/
def py_space (c : Char) : Bool :=
  decide ((0x09 ≤ c.toNat ∧ c.toNat ≤ 0x0d) ∨
    (0x1c ≤ c.toNat ∧ c.toNat ≤ 0x1f) ∨
    c.toNat = 0x20 ∨ c.toNat = 0x85 ∨ c.toNat = 0xa0 ∨ c.toNat = 0x1680 ∨
    (0x2000 ≤ c.toNat ∧ c.toNat ≤ 0x200a) ∨
    c.toNat = 0x2028 ∨ c.toNat = 0x2029 ∨ c.toNat = 0x202f ∨
    c.toNat = 0x205f ∨ c.toNat = 0x3000)

/-- Leading and trailing whitespace removal on a character list. -/
def strip_chars (l : List Char) : List Char :=
  ((l.dropWhile py_space).reverse.dropWhile py_space).reverse

/-- Python `value.strip()`. -/
def py_strip (s : String) : String :=
  ⟨strip_chars s.data⟩

/-- `DoctorNoteSerializer.validate_text` (`serializers.py` lines 34-49):
`if not value or not value.strip(): raise ValidationError(...)`, else
return `value.strip()`. -/
def validate_text (value : String) : Except String String :=
  if value = "" ∨ py_strip value = "" then
    .error "Note text cannot be empty."
  else
    .ok (py_strip value)

/-- The serializer-level handling of the `text` field on note creation:
an absent required field is rejected before `validate_text` runs;
a present value goes through `validate_text`. -/
def validate_text_field : Option String → Except String String
  | none => .error "This field is required."
  | some v => validate_text v

/-- Whether a validation outcome is a rejection. -/
def is_rejected : Except String String → Bool
  | .error _ => true
  | .ok _ => false

/-- Fixture: medication with one prescribed dose per day. -/
def med_one : Medication :=
  { name := "Test", dosage_mg := 100, prescribed_per_day := 1 }

/-- Fixture: medication with two prescribed doses per day. -/
def med_two : Medication :=
  { name := "Test", dosage_mg := 100, prescribed_per_day := 2 }

/-- Fixture: medication named Aspirin. -/
def med_asp : Medication :=
  { name := "Aspirin", dosage_mg := 100, prescribed_per_day := 1 }

/-- Fixture: a taken dose logged on day 0 (yesterday, when today is day 1). -/
def log_yesterday : DoseLog :=
  { taken_at := { date := 0, tod := 43200 }, was_taken := true }

/-- Fixture: a missed dose logged on day 1. -/
def log_missed : DoseLog :=
  { taken_at := { date := 1, tod := 0 }, was_taken := false }

/-- Fixture: one external API result entry, as in
`test_successful_api_response`. -/
def r_asp : ApiResult :=
  { openfda := some { generic_name := some ["Aspirin"], manufacturer_name := some ["Bayer"] }
    warnings := some ["Test warning"]
    purpose := some ["Pain relief"] }

/-- Fixture: transport answering 200 with one result. -/
def t_ok : Unit → Except String HttpResponse :=
  fun _ => .ok { status_code := 200, results := [r_asp] }

/-- Fixture: transport answering HTTP 404. -/
def t404 : Unit → Except String HttpResponse :=
  fun _ => .ok { status_code := 404, results := [] }

/-- Fixture: transport answering 200 with an empty result set. -/
def t_empty : Unit → Except String HttpResponse :=
  fun _ => .ok { status_code := 200, results := [] }

/-- Trimming a character list to nothing is the same as every character
being whitespace. -/
theorem strip_chars_eq_nil_iff (l : List Char) :
    strip_chars l = [] ↔ l.all py_space = true := by
  unfold strip_chars
  rw [List.reverse_eq_nil_iff, List.dropWhile_eq_nil_iff, List.all_eq_true]
  constructor
  · intro h x hx
    have hx2 : x ∈ l.takeWhile py_space ∨ x ∈ l.dropWhile py_space := by
      rw [← List.mem_append, List.takeWhile_append_dropWhile]
      exact hx
    rcases hx2 with h1 | h2
    · exact List.mem_takeWhile_imp h1
    · exact h x (List.mem_reverse.mpr h2)
  · intro h x hx
    exact h x ((List.dropWhile_sublist py_space).subset (List.mem_reverse.mp hx))

/-- C1: with `prescribed_per_day > 0` and `start ≤ end`,
`adherence_rate_over_period` returns 100 times the count of taken logs
whose calendar date lies in the inclusive range, divided by the expected
dose count `prescribed_per_day * (number of days in the range)` — not by
the number of logs found. -/
theorem adherence_over_period_spec (m : Medication) (logs : List DoseLog)
    (s e : Int) (_hp : 0 < m.prescribed_per_day) (hse : s ≤ e) :
    m.adherence_rate_over_period s e logs =
      .ok (100 * (count_taken_in_range s e logs : Rat) /
        ((m.prescribed_per_day : Rat) * ((e - s + 1 : Int) : Rat))) := by
  unfold Medication.adherence_rate_over_period
  rw [if_neg (by omega)]

/-- C1 witness: `prescribed_per_day = 1`, one taken log dated yesterday
(day 0), period `[yesterday, today] = [0, 1]` gives 50.0. -/
theorem adherence_over_period_spec_witness :
    0 < med_one.prescribed_per_day ∧ (0 : Int) ≤ 1 ∧
    med_one.adherence_rate_over_period 0 1 [log_yesterday] = .ok 50 := by
  refine ⟨by decide, by decide, ?_⟩
  have h := adherence_over_period_spec med_one [log_yesterday] 0 1 (by decide) (by decide)
  have hc : count_taken_in_range 0 1 [log_yesterday] = 1 := by decide
  rw [h, hc]
  norm_num [med_one]

/-- C8: whenever `start > end`, `adherence_rate_over_period` fails with
the invalid-argument condition, regardless of the logs. -/
theorem adherence_over_period_inverted (m : Medication) (logs : List DoseLog)
    (s e : Int) (h : e < s) :
    m.adherence_rate_over_period s e logs = .error "Start date must be before end date" := by
  unfold Medication.adherence_rate_over_period
  rw [if_pos h]

/-- C8 witness: period `[1, 0]` is rejected. -/
theorem adherence_over_period_inverted_witness :
    (0 : Int) < 1 ∧
    med_one.adherence_rate_over_period 1 0 [log_yesterday] =
      .error "Start date must be before end date" :=
  ⟨by decide, adherence_over_period_inverted med_one [log_yesterday] 1 0 (by decide)⟩

/-- C2: `adherence_rate` over all logs is 100 times the count of taken
logs divided by the count of all logs, and zero logs give 0.0. -/
theorem adherence_rate_spec (m : Medication) (logs : List DoseLog) :
    (logs = [] → m.adherence_rate logs = 0) ∧
    (logs ≠ [] → m.adherence_rate logs =
      100 * ((logs.filter (·.was_taken)).length : Rat) / (logs.length : Rat)) := by
  constructor
  · rintro rfl
    rfl
  · intro h
    unfold Medication.adherence_rate
    rw [if_neg (by simp [h])]

/-- C2 witness: zero logs give 0.0; one taken of two logs gives 50.0. -/
theorem adherence_rate_spec_witness :
    med_one.adherence_rate [] = 0 ∧
    med_one.adherence_rate [log_yesterday, log_missed] = 50 := by
  constructor
  · exact (adherence_rate_spec med_one []).1 rfl
  · have h := (adherence_rate_spec med_one [log_yesterday, log_missed]).2 (by decide)
    have hc : (List.filter (·.was_taken) [log_yesterday, log_missed]).length = 1 := by decide
    rw [h, hc]
    norm_num

/-- C3: with `prescribed_per_day > 0`, `expected_doses days` returns
`prescribed_per_day * days` for every `days ≥ 0` (zero included), and
fails with an invalid-argument condition for every `days < 0`. -/
theorem expected_doses_spec (m : Medication) (days : Int)
    (_hp : 0 < m.prescribed_per_day) :
    (0 ≤ days → m.expected_doses days = .ok ((m.prescribed_per_day : Int) * days)) ∧
    (days < 0 → ∃ msg, m.expected_doses days = .error msg) := by
  constructor
  · intro h
    unfold Medication.expected_doses
    rw [if_neg (by omega)]
  · intro h
    refine ⟨"Days cannot be negative", ?_⟩
    unfold Medication.expected_doses
    rw [if_pos h]

/-- C3 witness: `prescribed_per_day = 2`, `days = 3` gives 6;
`days = -1` is rejected. -/
theorem expected_doses_spec_witness :
    0 < med_two.prescribed_per_day ∧
    med_two.expected_doses 3 = .ok 6 ∧
    (∃ msg, med_two.expected_doses (-1) = .error msg) := by
  refine ⟨by decide, ?_, (expected_doses_spec med_two (-1) (by decide)).2 (by decide)⟩
  have h := (expected_doses_spec med_two 3 (by decide)).1 (by decide)
  rw [h]
  norm_num [med_two]

/-- C4: `fetch_external_info` calls `get_drug_info` with the record's own
name and never propagates a failure: a successful lookup is returned as
the structured record unchanged, and any failure (invalid-argument or
lookup-failure) becomes the dict `{"error": <message text>}`. -/
theorem fetch_external_info_spec (m : Medication)
    (t : Unit → Except String HttpResponse) :
    (∀ r, (get_drug_info m.name t).1 = .ok r → m.fetch_external_info t = r.toDict) ∧
    (∀ e, (get_drug_info m.name t).1 = .error e →
      m.fetch_external_info t = [("error", .str e.message)]) := by
  constructor
  · intro r h
    unfold Medication.fetch_external_info
    rw [h]
  · intro e h
    unfold Medication.fetch_external_info
    rw [h]

/-- C4 witness: an HTTP 404 lookup on Aspirin yields the error dict
rather than a raised failure. -/
theorem fetch_external_info_spec_witness :
    (get_drug_info med_asp.name t404).1 =
      .error (.lookupFailure "API request failed with status 404") ∧
    med_asp.fetch_external_info t404 =
      [("error", .str "API request failed with status 404")] :=
  ⟨rfl, (fetch_external_info_spec med_asp t404).2 _ rfl⟩

/-- C5: on a success status with at least one result, `get_drug_info`
returns the record with name = first generic name or the query name,
manufacturer = first manufacturer name or "Unknown", warnings = the
given list or ["No warnings available"], purpose = the given list or
["Not specified"]. -/
theorem get_drug_info_success_spec (name : String)
    (t : Unit → Except String HttpResponse) (resp : HttpResponse)
    (r : ApiResult) (rest : List ApiResult)
    (hn : name ≠ "") (ht : t () = .ok resp) (hs : resp.status_code = 200)
    (hr : resp.results = r :: rest) :
    (get_drug_info name t).1 =
      .ok { name := ((r.openfda.bind (·.generic_name)).bind List.head?).getD name
            manufacturer :=
              ((r.openfda.bind (·.manufacturer_name)).bind List.head?).getD "Unknown"
            warnings := r.warnings.getD ["No warnings available"]
            purpose := r.purpose.getD ["Not specified"] } := by
  unfold get_drug_info
  rw [if_neg hn, ht]
  simp only []
  rw [if_neg (by simp [hs]), hr]
  rfl

/-- C5 witness: the response of `test_successful_api_response` yields the
Aspirin/Bayer record with its warnings and purpose lists. -/
theorem get_drug_info_success_spec_witness :
    ("Aspirin" : String) ≠ "" ∧
    (get_drug_info "Aspirin" t_ok).1 =
      .ok { name := "Aspirin", manufacturer := "Bayer",
            warnings := ["Test warning"], purpose := ["Pain relief"] } := by
  refine ⟨by decide, ?_⟩
  have h := get_drug_info_success_spec "Aspirin" t_ok
    { status_code := 200, results := [r_asp] } r_asp [] (by decide) rfl rfl rfl
  rw [h]
  rfl

/-- C6: with a non-empty name, a non-success status from the service is
a lookup-failure, and a success status with an empty result set is the
"no results" lookup-failure. -/
theorem get_drug_info_failure_spec (name : String)
    (t : Unit → Except String HttpResponse) (hn : name ≠ "") :
    (∀ resp, t () = .ok resp → resp.status_code ≠ 200 →
      ∃ msg, (get_drug_info name t).1 = .error (.lookupFailure msg)) ∧
    (∀ resp, t () = .ok resp → resp.status_code = 200 → resp.results = [] →
      (get_drug_info name t).1 =
        .error (.lookupFailure "No results found for this drug")) := by
  constructor
  · intro resp ht hstat
    refine ⟨"API request failed with status " ++ toString resp.status_code, ?_⟩
    unfold get_drug_info
    rw [if_neg hn, ht]
    simp only []
    rw [if_pos hstat]
  · intro resp ht hstat hres
    unfold get_drug_info
    rw [if_neg hn, ht]
    simp only []
    rw [if_neg (by simp [hstat]), hres]

/-- C6 witness: HTTP 404 on Aspirin is a lookup-failure; HTTP 200 with
an empty result set is the "no results" lookup-failure. -/
theorem get_drug_info_failure_spec_witness :
    ("Aspirin" : String) ≠ "" ∧
    (∃ msg, (get_drug_info "Aspirin" t404).1 = .error (.lookupFailure msg)) ∧
    (get_drug_info "Aspirin" t_empty).1 =
      .error (.lookupFailure "No results found for this drug") := by
  refine ⟨by decide, ?_, ?_⟩
  · exact (get_drug_info_failure_spec "Aspirin" t404 (by decide)).1 _ rfl (by decide)
  · exact (get_drug_info_failure_spec "Aspirin" t_empty (by decide)).2 _ rfl rfl rfl

/-- C7: with an empty name, `get_drug_info` fails with the
invalid-argument condition and the HTTP transport is invoked zero
times, whatever the transport would have answered. -/
theorem get_drug_info_empty_name_spec
    (t : Unit → Except String HttpResponse) :
    (get_drug_info "" t).2 = 0 ∧
    (get_drug_info "" t).1 = .error (.invalidArg "Drug name is required") := by
  constructor <;> rfl

/-- C9: note-text validation rejects exactly the absent, empty, or
whitespace-only texts: a present text is rejected iff every character is
whitespace (equivalently, iff it trims to the empty string); an absent
text is rejected; the three-space text is rejected. -/
theorem validate_text_spec :
    (∀ v : String, is_rejected (validate_text_field (some v)) = true ↔
      v.data.all py_space = true) ∧
    is_rejected (validate_text_field none) = true ∧
    is_rejected (validate_text_field (some "   ")) = true := by
  refine ⟨?_, rfl, by decide⟩
  intro v
  have hestrip : v = "" → py_strip v = "" := by
    rintro rfl
    rfl
  have hdata : py_strip v = "" ↔ strip_chars v.data = [] := by
    constructor
    · intro h
      have := congrArg String.data h
      exact this
    · intro h
      show String.mk (strip_chars v.data) = ""
      rw [h]
  have hcond : is_rejected (validate_text_field (some v)) = true ↔
      (v = "" ∨ py_strip v = "") := by
    show is_rejected (validate_text v) = true ↔ _
    unfold validate_text
    by_cases hc : v = "" ∨ py_strip v = ""
    · rw [if_pos hc]
      simp [is_rejected, hc]
    · rw [if_neg hc]
      simp [is_rejected, hc]
  rw [hcond, ← strip_chars_eq_nil_iff, ← hdata]
  constructor
  · rintro (h | h)
    · exact hestrip h
    · exact h
  · intro h
    exact Or.inr h

/-- C10: the info endpoint's status decision answers 502 exactly when
the dict produced by `fetch_external_info` has a truthy `"error"` value;
a dict whose `"error"` value is the (falsy) empty string gets 200. -/
theorem get_external_info_status_spec (m : Medication)
    (t : Unit → Except String HttpResponse) :
    (get_external_info_status (m.fetch_external_info t) = 502 ↔
      truthy_opt ((m.fetch_external_info t).get "error") = true) ∧
    get_external_info_status [("error", .str "")] = 200 := by
  constructor
  · unfold get_external_info_status
    by_cases h : truthy_opt ((m.fetch_external_info t).get "error") = true
    · rw [if_pos h]
      simp [h]
    · rw [if_neg h]
      simp [h]
  · rfl

end Medtracker
